import Mathlib

/-!
Verification of the geocoding orchestration layer of `pysar/geocode.py`.

The Python module is shallowly embedded below.  Python dictionaries carrying
file metadata become association lists (`AttributeMap`) with Python-dict
semantics: assignment replaces the value of an existing key in place and
appends otherwise; `pop` removes a key and raises `KeyError` when absent.
Python floats become `PyFloat` (an exact rational or NaN); code paths that
raise exceptions are embedded as `Option`-valued functions returning `none`.
External collaborators (`pysar.utils`, `pysar.objects.resample`,
`readfile`/`writefile`) are parameters of the embedded functions.
-/

/-! ### Characters, strings and numbers -/

/-- Python `str.split(sep)` for a one-character separator, on the character
list of the string.  `splitOnChar c [] = [[]]`, matching `''.split(c) == ['']`. -/
def splitOnChar (c : Char) : List Char → List (List Char)
  | [] => [[]]
  | a :: rest =>
    if a = c then [] :: splitOnChar c rest
    else
      match splitOnChar c rest with
      | [] => [[a]]
      | h :: t => (a :: h) :: t

/-- Decimal digit-string value (most significant first). -/
def digitsToNat (cs : List Char) : ℕ :=
  cs.foldl (fun acc c => 10 * acc + (c.toNat - '0'.toNat)) 0

/-- Parse a non-empty all-digit character list; `none` otherwise. -/
def decDigits? (cs : List Char) : Option ℕ :=
  if cs.isEmpty then none
  else if cs.all (fun c => c.isDigit) then some (digitsToNat cs) else none

/-- Unsigned decimal literal (`"12"`, `"1.5"`, `"1."`, `".5"`), as an exact
rational. -/
def parseUnsigned? (cs : List Char) : Option ℚ :=
  match splitOnChar '.' cs with
  | [i] => (decDigits? i).map (fun n => Rat.divInt (n : ℤ) 1)
  | [i, f] =>
    if i.isEmpty && f.isEmpty then none
    else
      match (if i.isEmpty then some 0 else decDigits? i),
            (if f.isEmpty then some 0 else decDigits? f) with
      | some ip, some fp =>
        some (Rat.divInt ((ip : ℤ) * (10 : ℤ) ^ f.length + (fp : ℤ)) ((10 : ℤ) ^ f.length))
      | _, _ => none
  | _ => none

/-- Python `float()` applied to a plain decimal string literal (optional
sign, integer part, optional fractional part).  Scientific notation, inf
and surrounding whitespace are outside the subset exercised by this module;
`none` embeds `ValueError`.  The embedding is exact: IEEE rounding of the
decimal literal is not modelled and no claim depends on it. -/
def parseFloat? (s : String) : Option ℚ :=
  match s.data with
  | '-' :: rest => (parseUnsigned? rest).map Neg.neg
  | '+' :: rest => parseUnsigned? rest
  | cs => parseUnsigned? cs

/-- Python `int()` applied to a decimal integer string; `none` embeds
`ValueError`. -/
def parseInt? (s : String) : Option ℤ :=
  match s.data with
  | '-' :: rest => (decDigits? rest).map (fun n => -(n : ℤ))
  | '+' :: rest => (decDigits? rest).map (fun n => (n : ℤ))
  | cs => (decDigits? cs).map (fun n => (n : ℤ))

/-- `'nan' in s`: substring search for the literal `nan`. -/
def containsNanL : List Char → Bool
  | 'n' :: 'a' :: 'n' :: _ => true
  | _ :: rest => containsNanL rest
  | [] => false

/-- `s.lower()`. -/
def lowerL (cs : List Char) : List Char := cs.map Char.toLower

/-- A Python float value: either an exact rational number or NaN. -/
inductive PyFloat where
  | num (q : ℚ)
  | nan
deriving DecidableEq, Repr

/-- A Python value stored in a metadata dictionary: the source stores
strings (values read from file), ints (`res_obj.length/width`) and floats
(`res_obj.SNWE`, `res_obj.laloStep` components). -/
inductive AttrVal where
  | str (s : String)
  | int (n : ℤ)
  | float (f : PyFloat)
deriving DecidableEq, Repr

/-- `True` exactly on string values. -/
def AttrVal.isStr : AttrVal → Bool
  | .str _ => true
  | _ => false

/-- Python `int()` applied to a metadata value: parses integer strings,
keeps ints, truncates finite floats toward zero; `int(nan)` raises
(`none`). -/
def AttrVal.toInt? : AttrVal → Option ℤ
  | .str s => parseInt? s
  | .int n => some n
  | .float (.num q) => some (q.num.tdiv q.den)
  | .float .nan => none

/-- Python `float()` applied to a metadata value (`float("nan")` is NaN). -/
def AttrVal.toFloat? : AttrVal → Option PyFloat
  | .str s => if lowerL s.data = ['n', 'a', 'n'] then some .nan else (parseFloat? s).map .num
  | .int n => some (.num (n : ℚ))
  | .float f => some f

/-- `np.rint`: round to the nearest integer, ties to even. -/
def rint (q : ℚ) : ℤ :=
  let f := ⌊q⌋
  let r := q - (f : ℚ)
  if r < 1/2 then f
  else if 1/2 < r then f + 1
  else if f % 2 = 0 then f else f + 1

/-- Python `str()` of a float.  The exact digit string of Python's float
repr is not relied upon by any claim; the embedding renders the exact
rational. -/
def pyFloatStr (q : ℚ) : String := toString q

/-- Python `str()` of an int (matches Lean's decimal rendering). -/
def pyIntStr (n : ℤ) : String := toString n

/-! ### Metadata dictionaries -/

/-- Ordered metadata dictionary (Python `dict` of a raster file's
attributes), embedded as an association list in insertion order. -/
abbrev AttributeMap := List (String × AttrVal)

/-- Key membership: `k in atr.keys()`. -/
def hasKey (m : AttributeMap) (k : String) : Bool :=
  m.any (fun p => decide (p.1 = k))

/-- Dictionary read `atr[k]`, `none` when the key is absent (KeyError). -/
def getVal (m : AttributeMap) (k : String) : Option AttrVal :=
  (m.find? (fun p => decide (p.1 = k))).map Prod.snd

/-- Dictionary write `atr[k] = v`: replaces the value of an existing key in
place (keeping its position, as Python dicts do) and appends otherwise. -/
def setKey (m : AttributeMap) (k : String) (v : AttrVal) : AttributeMap :=
  if hasKey m k then m.map (fun p => if p.1 = k then (k, v) else p)
  else m ++ [(k, v)]

/-- `try: atr.pop(k)  except: pass` — remove the key when present, no-op
otherwise. -/
def popIfPresent (m : AttributeMap) (k : String) : AttributeMap :=
  m.filter (fun p => !decide (p.1 = k))

/-- `try: atr.pop(k1); atr.pop(k2)  except: pass` — when `k1` is absent the
`KeyError` fires before `k2` is popped, so `k2` survives; when `k1` is
present but `k2` absent, `k1` is already removed when the error fires. -/
def tryPop2 (m : AttributeMap) (k1 k2 : String) : AttributeMap :=
  if hasKey m k1 then popIfPresent (popIfPresent m k1) k2 else m

/-! ### The argparse namespace and collaborator interfaces -/

/-- The `argparse.Namespace` produced by `create_parser()` (defaults as in
the source), plus the `laloStep` attribute that `read_template2inps` and
`_check_inps` attach to it.  `SNWE` is the parsed bounding-box float tuple,
of length 4 from the CLI (template values keep whatever length the
comma-separated string has, as in the source). -/
structure Inps where
  file : List String
  dset : Option String := none
  radar2geo : Bool := true
  lookupFile : Option String := none
  templateFile : Option String := none
  SNWE : Option (List ℚ) := none
  latStep : Option ℚ := none
  lonStep : Option ℚ := none
  interpMethod : String := "nearest"
  fillValue : PyFloat := .nan
  updateMode : Bool := false
  outfile : Option String := none
  out_dir : Option String := none
  laloStep : Option (ℚ × ℚ) := none
deriving DecidableEq, Repr

/-- Python truthiness of an optional string (`None` and `''` are falsy). -/
def truthy : Option String → Bool
  | some s => !(s == "")
  | none => false

/-- Resolved `S N W E` bounding box of the resample object. -/
structure Snwe where
  S : ℚ
  N : ℚ
  W : ℚ
  E : ℚ
deriving DecidableEq, Repr

/-- The geometry produced by the external resample engine
(`pysar.objects.resample` after `get_geometry_definition()`), read-only
here: output grid size, resolved bounding box (`SNWE[1]` is `N`,
`SNWE[2]` is `W`), resolved grid step (`laloStep[0]` latitude,
`laloStep[1]` longitude) and the lookup file it was derived from. -/
structure ResampleObj where
  length : ℤ
  width : ℤ
  SNWE : Snwe
  laloStep : ℚ × ℚ
  file : String
deriving DecidableEq, Repr

/-- External collaborators used by `_check_inps`:
`ut.get_file_list`, `readfile.read_attribute` (of the first file) and
`ut.get_lookup_file` (returning `none` when no lookup table is found). -/
structure Collab where
  get_file_list : List String → List String
  read_attribute : String → AttributeMap
  get_lookup_file : Option String → Option String

/-- Observable outcome of `_check_inps`: `error` embeds a raised exception
(`Exception` / `FileNotFoundError`), `noop` embeds `sys.exit(0)` (a
success exit producing no output, distinct from an exception), and
`proceed` carries the checked namespace. -/
inductive CheckOutcome where
  | error (msg : String)
  | noop
  | proceed (inps : Inps)
deriving DecidableEq, Repr

/-! ### ConfigResolver: `read_template2inps` and `_check_inps` -/

/-- Modelled from the spec: `ut.check_template_auto_value` (in
`pysar.utils`, not under `src/`) — "a template value of the literal
`auto` token, or an empty value, is treated as unset".  The template
dictionary itself (product of the out-of-scope template parser) is a
partial map from key to string value. -/
def check_template_auto_value (t : String → Option String) : String → Option String :=
  fun k =>
    match t k with
    | some v => if v = "auto" ∨ v = "" then none else some v
    | none => none

/-- `inps_dict['SNWE'] = tuple([float(i) for i in value.split(',')])` when
the template supplies `pysar.geocode.SNWE`; outer `none` embeds a raised
`ValueError`. -/
def mergeSNWE (t : String → Option String) (old : Option (List ℚ)) :
    Option (Option (List ℚ)) :=
  match t "pysar.geocode.SNWE" with
  | none => some old
  | some v => ((splitOnChar ',' v.data).mapM parseUnsignedOrSigned?).map some
where
  /-- `float(i)` on one comma-separated component. -/
  parseUnsignedOrSigned? (cs : List Char) : Option ℚ :=
    match cs with
    | '-' :: rest => (parseUnsigned? rest).map Neg.neg
    | '+' :: rest => parseUnsigned? rest
    | _ => parseUnsigned? cs

/-- `inps_dict[key] = float(value)` for `latStep` / `lonStep`. -/
def mergeStep (t : String → Option String) (key : String) (old : Option ℚ) :
    Option (Option ℚ) :=
  match t ("pysar.geocode." ++ key) with
  | none => some old
  | some v => (parseFloat? v).map some

/-- `inps_dict['interpMethod'] = value`. -/
def mergeInterp (t : String → Option String) (old : String) : String :=
  match t "pysar.geocode.interpMethod" with
  | none => old
  | some v => v

/-- `inps_dict['fillValue']`: NaN when the value contains the
case-insensitive substring `nan`, otherwise `float(value)`. -/
def mergeFill (t : String → Option String) (old : PyFloat) : Option PyFloat :=
  match t "pysar.geocode.fillValue" with
  | none => some old
  | some v =>
    if containsNanL (lowerL v.data) then some .nan
    else (parseFloat? v).map .num

/-- `read_template2inps(template_file, inps)`: reads the recognized
`pysar.geocode.*` template keys and, when the (auto-filtered) value is
truthy, overwrites the namespace field; finally recomputes `laloStep`
(`None` unless both steps are set).  `none` embeds a raised exception
(a value that fails to parse). -/
def read_template2inps (t0 : String → Option String) (inps : Inps) : Option Inps :=
  match mergeSNWE (check_template_auto_value t0) inps.SNWE with
  | none => none
  | some snwe =>
    match mergeStep (check_template_auto_value t0) "latStep" inps.latStep with
    | none => none
    | some lat =>
      match mergeStep (check_template_auto_value t0) "lonStep" inps.lonStep with
      | none => none
      | some lon =>
        match mergeFill (check_template_auto_value t0) inps.fillValue with
        | none => none
        | some fv =>
          some { inps with
            SNWE := snwe, latStep := lat, lonStep := lon,
            interpMethod :=
              mergeInterp (check_template_auto_value t0) inps.interpMethod,
            fillValue := fv,
            laloStep :=
              (match lat, lon with
              | some a, some b => some (a, b)
              | _, _ => none) }

/-- `_check_inps(inps)`: expands the input file list (raising when empty,
discarding `outfile` when more than one file), checks the coordinate
system of the first file against the requested direction (`sys.exit(0)`
when the file is already in the target system), resolves the lookup table
(raising `FileNotFoundError` when none is found), and normalizes
`laloStep` to `None` unless both steps are present.  The `tuple(SNWE)`
conversion is the identity in this embedding. -/
def check_inps (c : Collab) (inps : Inps) : CheckOutcome :=
  match c.get_file_list inps.file with
  | [] => .error "ERROR: no input file found!"
  | f :: fs =>
    let inps := { inps with file := f :: fs,
                            outfile := if fs.length + 1 > 1 then none else inps.outfile }
    let atr := c.read_attribute f
    if hasKey atr "Y_FIRST" && inps.radar2geo then .noop
    else if !hasKey atr "Y_FIRST" && !inps.radar2geo then .noop
    else
      match c.get_lookup_file inps.lookupFile with
      | none => .error "No lookup table found! Can not geocode without it."
      | some lk =>
        let inps := { inps with lookupFile := some lk }
        let laloStep : Option (ℚ × ℚ) :=
          match inps.latStep, inps.lonStep with
          | some a, some b => some (a, b)
          | _, _ => none
        .proceed { inps with laloStep := laloStep }

/-! ### MetadataTransformer: `metadata_radar2geo` and `metadata_geo2radar` -/

/-- The first eight dictionary writes of `metadata_radar2geo`: grid size,
geographic origin (`SNWE[1]`, `SNWE[2]`), grid step and units. -/
def gridAttrs (atr_in : AttributeMap) (res : ResampleObj) : AttributeMap :=
  let atr := setKey atr_in "LENGTH" (.int res.length)
  let atr := setKey atr "WIDTH" (.int res.width)
  let atr := setKey atr "Y_FIRST" (.float (.num res.SNWE.N))
  let atr := setKey atr "X_FIRST" (.float (.num res.SNWE.W))
  let atr := setKey atr "Y_STEP" (.float (.num res.laloStep.1))
  let atr := setKey atr "X_STEP" (.float (.num res.laloStep.2))
  let atr := setKey atr "Y_UNIT" (.str "degrees")
  setKey atr "X_UNIT" (.str "degrees")

/-- `metadata_radar2geo(atr_in, res_obj)`: copies the input dictionary,
overwrites the grid keys from the geometry, and relocates the reference
pixel when `REF_Y` is present.  `radar2glob` is the external coordinate
resolver `ut.radar2glob(y, x, res_obj.file, atr_in)[0:2]` (its fixed
trailing arguments are captured in the parameter).  `none` embeds a raised
exception: `KeyError` when `REF_Y` is present but `REF_X` absent,
`ValueError` from `int()`, or `int()` of the non-finite index obtained
when a resolved step is zero. -/
def metadata_radar2geo (atr_in : AttributeMap) (res : ResampleObj)
    (radar2glob : ℤ → ℤ → PyFloat × PyFloat) : Option AttributeMap :=
  let atr := gridAttrs atr_in res
  if hasKey atr "REF_Y" then
    match (getVal atr "REF_Y").bind AttrVal.toInt?,
          (getVal atr "REF_X").bind AttrVal.toInt? with
    | some ry, some rx =>
      match radar2glob ry rx with
      | (.num ref_lat, .num ref_lon) =>
        match (getVal atr "Y_FIRST").bind AttrVal.toFloat?,
              (getVal atr "X_FIRST").bind AttrVal.toFloat?,
              (getVal atr "Y_STEP").bind AttrVal.toFloat?,
              (getVal atr "X_STEP").bind AttrVal.toFloat? with
        | some (.num yf), some (.num xf), some (.num ys), some (.num xs) =>
          if ys = 0 ∨ xs = 0 then none
          else
            let ref_y := rint ((ref_lat - yf) / ys)
            let ref_x := rint ((ref_lon - xf) / xs)
            let atr := setKey atr "REF_LAT" (.str (pyFloatStr ref_lat))
            let atr := setKey atr "REF_LON" (.str (pyFloatStr ref_lon))
            let atr := setKey atr "REF_Y" (.str (pyIntStr ref_y))
            let atr := setKey atr "REF_X" (.str (pyIntStr ref_x))
            some atr
        | _, _, _, _ => none
      | _ =>
        -- reference pixel out of the lookup table's coverage:
        -- warnings.warn(...), then best-effort pops
        let atr := tryPop2 atr "REF_Y" "REF_X"
        let atr := tryPop2 atr "REF_LAT" "REF_LON"
        some atr
    | _, _ => none
  else
    some atr

/-- The ten keys removed by `metadata_geo2radar`, in source order. -/
def geo2radarRemovalKeys : List String :=
  ["Y_FIRST", "X_FIRST", "Y_STEP", "X_STEP", "Y_UNIT", "X_UNIT",
   "REF_Y", "REF_X", "REF_LAT", "REF_LON"]

/-- `metadata_geo2radar(atr_in, res_obj)`: copies the input dictionary,
overwrites `LENGTH`/`WIDTH` from the geometry, then best-effort-removes
the geographic grid and reference-pixel keys. -/
def metadata_geo2radar (atr_in : AttributeMap) (res : ResampleObj) : AttributeMap :=
  let atr := setKey atr_in "LENGTH" (.int res.length)
  let atr := setKey atr "WIDTH" (.int res.width)
  geo2radarRemovalKeys.foldl popIfPresent atr

/-! ### BatchOrchestrator: `auto_output_filename` and `run_resample` -/

/-- `os.path.basename`. -/
def os_path_basename (p : String) : String :=
  String.mk ((splitOnChar '/' p.data).getLastD [])

/-- `os.path.join(a, b)` for the cases arising here (no drive letters). -/
def os_path_join (a b : String) : String :=
  if (match b.data with | '/' :: _ => true | _ => false) then b
  else if a == "" || (match a.data.getLast? with | some '/' => true | _ => false) then a ++ b
  else a ++ "/" ++ b

/-- `auto_output_filename(infile, inps)`. -/
def auto_output_filename (infile : String) (inps : Inps) : String :=
  if inps.file.length = 1 && truthy inps.outfile then inps.outfile.getD ""
  else
    let pfx := if inps.radar2geo then "geo_" else "rdr_"
    let outfile :=
      match inps.dset with
      | some d => if d == "" then pfx ++ os_path_basename infile else pfx ++ d ++ ".h5"
      | none => pfx ++ os_path_basename infile
    match inps.out_dir with
    | some dir => if dir == "" then outfile else os_path_join dir outfile
    | none => outfile

/-- External collaborators used by `run_resample`: `ut.update_file`
(`true` when the output is missing or older than a dependency, i.e. an
update is needed), `readfile.get_dataset_list`, `readfile.read_attribute`
and `ut.radar2glob`.  Raster arrays and the resample engine's numeric
output are not modelled; the engine invocations are recorded as events. -/
structure RunEnv where
  update_file : String → List String → Bool
  get_dataset_list : String → Option String → List String
  read_attribute : String → Option String → AttributeMap
  radar2glob : ℤ → ℤ → PyFloat × PyFloat

/-- One `writefile.write(dsResDict, out_file, metadata, ref_file)` call:
the output path, the dataset names in enumeration order (the keys of
`dsResDict`), the metadata dictionary, and the reference file (`none`
when single-dataset suppression set `infile = None`). -/
structure WriteEvent where
  outfile : String
  dsNames : List String
  metadata : AttributeMap
  ref_file : Option String
deriving DecidableEq, Repr

/-- Observable trace of a `run_resample` call: `result = none` embeds a
raised exception, `result = some r` a normal return of `r`;
`resampleCalls` lists the `res_obj.resample` invocations as
`(input file, dataset)` pairs in order; `writes` lists the
`writefile.write` calls in order. -/
structure RunTrace where
  result : Option (Option String)
  resampleCalls : List (String × String)
  writes : List WriteEvent
deriving DecidableEq, Repr

/-- The body of one non-skipped iteration of the `run_resample` loop:
enumerate datasets (`max()` of an empty list raises, embedded as `none`),
resample each dataset (recorded as events), transform the metadata, and
apply the single-dataset `FILE_TYPE`/reference-file suppression (the
`timeseries` dataset name is exempt). -/
def processFile (env : RunEnv) (inps : Inps) (res : ResampleObj)
    (infile outfile : String) : List (String × String) × Option WriteEvent :=
  let dsNames := env.get_dataset_list infile inps.dset
  if dsNames.isEmpty then ([], none)
  else
    let calls := dsNames.map (fun d => (infile, d))
    let atr := env.read_attribute infile inps.dset
    match (if inps.radar2geo then metadata_radar2geo atr res env.radar2glob
           else some (metadata_geo2radar atr res)) with
    | none => (calls, none)
    | some atr1 =>
      match dsNames with
      | [d] =>
        if d == "timeseries" then
          (calls, some ⟨outfile, dsNames, atr1, some infile⟩)
        else
          (calls, some ⟨outfile, dsNames, setKey atr1 "FILE_TYPE" (.str d), none⟩)
      | _ => (calls, some ⟨outfile, dsNames, atr1, some infile⟩)

/-- The `for infile in inps.file:` loop of `run_resample`.  A result of
`some none` means the loop ran off the end of an empty list (the final
`return outfile` then references the last iteration's variable); each
normally-completed iteration substitutes its own output path.  In update
mode an up-to-date output `return`s from the whole function — remaining
files are not visited. -/
def run_loop (env : RunEnv) (inps : Inps) (res : ResampleObj) (lookupF : String) :
    List String → RunTrace
  | [] => ⟨some none, [], []⟩
  | infile :: rest =>
    let outfile := auto_output_filename infile inps
    if inps.updateMode && !(env.update_file outfile [infile, lookupF]) then
      ⟨some (some outfile), [], []⟩
    else
      match processFile env inps res infile outfile with
      | (calls, none) => ⟨none, calls, []⟩
      | (calls, some ev) =>
        let t := run_loop env inps res lookupF rest
        { result := match t.result with
                    | some none => some (some outfile)
                    | r => r,
          resampleCalls := calls ++ t.resampleCalls,
          writes := ev :: t.writes }

/-- `run_resample(inps)`: the geometry `res` is built once by the external
engine from the lookup file, first input file, bounding box and step
(out of scope, passed in resolved); then the input files are traversed. -/
def run_resample (env : RunEnv) (inps : Inps) (res : ResampleObj) : RunTrace :=
  run_loop env inps res (inps.lookupFile.getD "") inps.file

/-! ### Dictionary lemmas -/

theorem hasKey_cons (a : String) (b : AttrVal) (m : AttributeMap) (k : String) :
    hasKey ((a, b) :: m) k = (decide (a = k) || hasKey m k) := by
  simp [hasKey]

theorem getVal_cons (a : String) (b : AttrVal) (m : AttributeMap) (k : String) :
    getVal ((a, b) :: m) k = if a = k then some b else getVal m k := by
  by_cases h : a = k <;> simp [getVal, List.find?_cons, h]

theorem hasKey_eq_isSome_getVal (m : AttributeMap) (k : String) :
    hasKey m k = (getVal m k).isSome := by
  induction m with
  | nil => rfl
  | cons p t ih =>
    obtain ⟨a, b⟩ := p
    by_cases h : a = k <;> simp [hasKey_cons, getVal_cons, h, ← ih, hasKey]

theorem getVal_mapSet_self (m : AttributeMap) (k : String) (v : AttrVal) :
    getVal (m.map (fun p => if p.1 = k then (k, v) else p)) k =
      if hasKey m k then some v else none := by
  induction m with
  | nil => rfl
  | cons p t ih =>
    obtain ⟨a, b⟩ := p
    by_cases h : a = k <;> simp [getVal_cons, hasKey_cons, h, ih]

theorem getVal_mapSet_ne (m : AttributeMap) (k k' : String) (v : AttrVal)
    (h : k' ≠ k) :
    getVal (m.map (fun p => if p.1 = k then (k, v) else p)) k' = getVal m k' := by
  induction m with
  | nil => rfl
  | cons p t ih =>
    obtain ⟨a, b⟩ := p
    by_cases ha : a = k
    · subst ha
      simp [getVal_cons, Ne.symm h, ih]
    · by_cases ha' : a = k' <;> simp [getVal_cons, ha, ha', h, ih]

theorem getVal_append_single_self (m : AttributeMap) (k : String) (v : AttrVal)
    (h : hasKey m k = false) : getVal (m ++ [(k, v)]) k = some v := by
  induction m with
  | nil => simp [getVal_cons]
  | cons p t ih =>
    obtain ⟨a, b⟩ := p
    rw [hasKey_cons] at h
    rcases Bool.or_eq_false_iff.mp h with ⟨h1, h2⟩
    have ha : a ≠ k := by simpa using h1
    simp [List.cons_append, getVal_cons, ha, ih h2]

theorem getVal_append_single_ne (m : AttributeMap) (k k' : String) (v : AttrVal)
    (h : k' ≠ k) : getVal (m ++ [(k, v)]) k' = getVal m k' := by
  induction m with
  | nil => simp [getVal_cons, getVal, Ne.symm h]
  | cons p t ih =>
    obtain ⟨a, b⟩ := p
    by_cases ha' : a = k' <;> simp [List.cons_append, getVal_cons, ha', ih]

theorem getVal_setKey_self (m : AttributeMap) (k : String) (v : AttrVal) :
    getVal (setKey m k v) k = some v := by
  unfold setKey
  by_cases h : hasKey m k
  · simp [h, getVal_mapSet_self]
  · simp only [h, Bool.false_eq_true, if_false]
    exact getVal_append_single_self m k v (by simpa using h)

theorem getVal_setKey_ne (m : AttributeMap) (k k' : String) (v : AttrVal)
    (h : k' ≠ k) : getVal (setKey m k v) k' = getVal m k' := by
  unfold setKey
  by_cases hk : hasKey m k
  · simp [hk, getVal_mapSet_ne m k k' v h]
  · simp only [hk, Bool.false_eq_true, if_false]
    exact getVal_append_single_ne m k k' v h

theorem hasKey_setKey_self (m : AttributeMap) (k : String) (v : AttrVal) :
    hasKey (setKey m k v) k = true := by
  simp [hasKey_eq_isSome_getVal, getVal_setKey_self]

theorem hasKey_setKey_ne (m : AttributeMap) (k k' : String) (v : AttrVal)
    (h : k' ≠ k) : hasKey (setKey m k v) k' = hasKey m k' := by
  simp [hasKey_eq_isSome_getVal, getVal_setKey_ne m k k' v h]

theorem getVal_popIfPresent_self (m : AttributeMap) (k : String) :
    getVal (popIfPresent m k) k = none := by
  induction m with
  | nil => rfl
  | cons p t ih =>
    obtain ⟨a, b⟩ := p
    by_cases h : a = k <;>
      simpa [popIfPresent, List.filter_cons, h, getVal_cons] using ih

theorem getVal_popIfPresent_ne (m : AttributeMap) (k k' : String) (h : k' ≠ k) :
    getVal (popIfPresent m k) k' = getVal m k' := by
  induction m with
  | nil => rfl
  | cons p t ih =>
    obtain ⟨a, b⟩ := p
    by_cases ha : a = k
    · subst ha
      simpa [popIfPresent, List.filter_cons, getVal_cons, Ne.symm h] using ih
    · by_cases ha' : a = k'
      · simp [popIfPresent, List.filter_cons, ha, ha', getVal_cons, h]
      · simpa [popIfPresent, List.filter_cons, ha, ha', getVal_cons, h] using ih

theorem hasKey_popIfPresent_self (m : AttributeMap) (k : String) :
    hasKey (popIfPresent m k) k = false := by
  simp [hasKey_eq_isSome_getVal, getVal_popIfPresent_self]

theorem hasKey_popIfPresent_ne (m : AttributeMap) (k k' : String) (h : k' ≠ k) :
    hasKey (popIfPresent m k) k' = hasKey m k' := by
  simp [hasKey_eq_isSome_getVal, getVal_popIfPresent_ne m k k' h]

theorem popIfPresent_absent (m : AttributeMap) (k : String)
    (h : hasKey m k = false) : popIfPresent m k = m := by
  induction m with
  | nil => rfl
  | cons p t ih =>
    obtain ⟨a, b⟩ := p
    rw [hasKey_cons] at h
    rcases Bool.or_eq_false_iff.mp h with ⟨h1, h2⟩
    have ha : a ≠ k := by simpa using h1
    simpa [popIfPresent, List.filter_cons, ha] using ih h2

theorem mem_setKey (m : AttributeMap) (k : String) (v : AttrVal)
    (p : String × AttrVal) (hp : p ∈ setKey m k v) :
    p = (k, v) ∨ p ∈ m := by
  unfold setKey at hp
  by_cases hk : hasKey m k
  · simp only [hk, if_true, List.mem_map] at hp
    obtain ⟨q, hq, hqe⟩ := hp
    by_cases h : q.1 = k
    · left
      simp only [h, if_true] at hqe
      exact hqe.symm
    · right
      simp only [h, if_false] at hqe
      exact hqe ▸ hq
  · simp only [hk, Bool.false_eq_true, if_false, List.mem_append,
      List.mem_singleton] at hp
    tauto

theorem mem_popIfPresent (m : AttributeMap) (k : String)
    (p : String × AttrVal) (hp : p ∈ popIfPresent m k) : p ∈ m :=
  List.mem_of_mem_filter hp

theorem hasKey_false_forall (m : AttributeMap) (k : String)
    (h : hasKey m k = false) : ∀ p ∈ m, p.1 ≠ k := by
  intro p hp
  simp only [hasKey, List.any_eq_false] at h
  simpa using h p hp

theorem mem_setKey_strong (m : AttributeMap) (k : String) (v : AttrVal)
    (p : String × AttrVal) (hp : p ∈ setKey m k v) :
    p = (k, v) ∨ (p ∈ m ∧ p.1 ≠ k) := by
  unfold setKey at hp
  by_cases hk : hasKey m k
  · simp only [hk, if_true, List.mem_map] at hp
    obtain ⟨q, hq, hqe⟩ := hp
    by_cases h : q.1 = k
    · left
      simp only [h, if_true] at hqe
      exact hqe.symm
    · right
      simp only [h, if_false] at hqe
      exact ⟨hqe ▸ hq, hqe ▸ h⟩
  · simp only [hk, Bool.false_eq_true, if_false, List.mem_append,
      List.mem_singleton] at hp
    rcases hp with hp | hp
    · exact Or.inr ⟨hp, hasKey_false_forall m k (by simpa using hk) p hp⟩
    · exact Or.inl hp

theorem setKey_eq_self (m : AttributeMap) (k : String) (v : AttrVal)
    (h1 : hasKey m k = true) (h2 : ∀ p ∈ m, p.1 = k → p.2 = v) :
    setKey m k v = m := by
  unfold setKey
  rw [h1, if_pos rfl]
  calc m.map (fun p => if p.1 = k then (k, v) else p)
      = m.map id := by
        apply List.map_congr_left
        intro p hp
        by_cases hpk : p.1 = k
        · simp only [hpk, if_true, id_eq]
          have := h2 p hp hpk
          calc (k, v) = (p.1, p.2) := by rw [hpk, this]
            _ = p := rfl
        · simp [hpk]
    _ = m := List.map_id m

theorem allVal_setKey_self (m : AttributeMap) (k : String) (v : AttrVal) :
    ∀ p ∈ setKey m k v, p.1 = k → p.2 = v := by
  intro p hp hpk
  rcases mem_setKey_strong m k v p hp with h | ⟨_, hne⟩
  · rw [h]
  · exact absurd hpk hne

theorem allVal_setKey_ne (m : AttributeMap) (k k' : String) (v v' : AttrVal)
    (hk : k ≠ k') (h : ∀ p ∈ m, p.1 = k → p.2 = v) :
    ∀ p ∈ setKey m k' v', p.1 = k → p.2 = v := by
  intro p hp hpk
  rcases mem_setKey_strong m k' v' p hp with he | ⟨hm, _⟩
  · rw [he] at hpk
    exact absurd hpk.symm hk
  · exact h p hm hpk

theorem allVal_popIfPresent (m : AttributeMap) (k k' : String) (v : AttrVal)
    (h : ∀ p ∈ m, p.1 = k → p.2 = v) :
    ∀ p ∈ popIfPresent m k', p.1 = k → p.2 = v :=
  fun p hp => h p (mem_popIfPresent m k' p hp)

theorem hasKey_foldl_pop (m : AttributeMap) (ks : List String) (k : String) :
    hasKey (ks.foldl popIfPresent m) k = (hasKey m k && !(decide (k ∈ ks))) := by
  induction ks generalizing m with
  | nil => simp
  | cons a t ih =>
    simp only [List.foldl_cons, ih]
    by_cases h : k = a
    · subst h
      simp [hasKey_popIfPresent_self]
    · simp [hasKey_popIfPresent_ne m a k h, h]

theorem getVal_foldl_pop_not_mem (m : AttributeMap) (ks : List String) (k : String)
    (hk : k ∉ ks) : getVal (ks.foldl popIfPresent m) k = getVal m k := by
  induction ks generalizing m with
  | nil => rfl
  | cons a t ih =>
    simp only [List.mem_cons, not_or] at hk
    simp only [List.foldl_cons]
    rw [ih (popIfPresent m a) hk.2, getVal_popIfPresent_ne m a k hk.1]

theorem allVal_foldl_pop (m : AttributeMap) (ks : List String) (k : String) (v : AttrVal)
    (h : ∀ p ∈ m, p.1 = k → p.2 = v) :
    ∀ p ∈ ks.foldl popIfPresent m, p.1 = k → p.2 = v := by
  induction ks generalizing m with
  | nil => exact h
  | cons a t ih =>
    simp only [List.foldl_cons]
    exact ih (popIfPresent m a) (allVal_popIfPresent m k a v h)

theorem foldl_pop_absent (m : AttributeMap) (ks : List String)
    (h : ∀ k ∈ ks, hasKey m k = false) : ks.foldl popIfPresent m = m := by
  induction ks with
  | nil => rfl
  | cons a t ih =>
    simp only [List.foldl_cons]
    rw [popIfPresent_absent m a (h a (by simp))]
    exact ih (fun k hk => h k (by simp [hk]))

/-- The eight keys written by `gridAttrs`. -/
def gridKeys : List String :=
  ["LENGTH", "WIDTH", "Y_FIRST", "X_FIRST", "Y_STEP", "X_STEP", "Y_UNIT", "X_UNIT"]

theorem getVal_gridAttrs_not_mem (m : AttributeMap) (res : ResampleObj) (k : String)
    (hk : k ∉ gridKeys) : getVal (gridAttrs m res) k = getVal m k := by
  simp only [gridKeys, List.mem_cons, List.not_mem_nil, or_false, not_or] at hk
  obtain ⟨h1, h2, h3, h4, h5, h6, h7, h8⟩ := hk
  simp only [gridAttrs]
  rw [getVal_setKey_ne _ _ _ _ h8, getVal_setKey_ne _ _ _ _ h7,
      getVal_setKey_ne _ _ _ _ h6, getVal_setKey_ne _ _ _ _ h5,
      getVal_setKey_ne _ _ _ _ h4, getVal_setKey_ne _ _ _ _ h3,
      getVal_setKey_ne _ _ _ _ h2, getVal_setKey_ne _ _ _ _ h1]

theorem hasKey_gridAttrs_not_mem (m : AttributeMap) (res : ResampleObj) (k : String)
    (hk : k ∉ gridKeys) : hasKey (gridAttrs m res) k = hasKey m k := by
  simp [hasKey_eq_isSome_getVal, getVal_gridAttrs_not_mem m res k hk]

theorem getVal_gridAttrs_LENGTH (m : AttributeMap) (res : ResampleObj) :
    getVal (gridAttrs m res) "LENGTH" = some (.int res.length) := by
  simp only [gridAttrs]
  rw [getVal_setKey_ne _ _ _ _ (by decide), getVal_setKey_ne _ _ _ _ (by decide),
      getVal_setKey_ne _ _ _ _ (by decide), getVal_setKey_ne _ _ _ _ (by decide),
      getVal_setKey_ne _ _ _ _ (by decide), getVal_setKey_ne _ _ _ _ (by decide),
      getVal_setKey_ne _ _ _ _ (by decide), getVal_setKey_self]

theorem getVal_gridAttrs_WIDTH (m : AttributeMap) (res : ResampleObj) :
    getVal (gridAttrs m res) "WIDTH" = some (.int res.width) := by
  simp only [gridAttrs]
  rw [getVal_setKey_ne _ _ _ _ (by decide), getVal_setKey_ne _ _ _ _ (by decide),
      getVal_setKey_ne _ _ _ _ (by decide), getVal_setKey_ne _ _ _ _ (by decide),
      getVal_setKey_ne _ _ _ _ (by decide), getVal_setKey_ne _ _ _ _ (by decide),
      getVal_setKey_self]

theorem getVal_gridAttrs_Y_FIRST (m : AttributeMap) (res : ResampleObj) :
    getVal (gridAttrs m res) "Y_FIRST" = some (.float (.num res.SNWE.N)) := by
  simp only [gridAttrs]
  rw [getVal_setKey_ne _ _ _ _ (by decide), getVal_setKey_ne _ _ _ _ (by decide),
      getVal_setKey_ne _ _ _ _ (by decide), getVal_setKey_ne _ _ _ _ (by decide),
      getVal_setKey_ne _ _ _ _ (by decide), getVal_setKey_self]

theorem getVal_gridAttrs_X_FIRST (m : AttributeMap) (res : ResampleObj) :
    getVal (gridAttrs m res) "X_FIRST" = some (.float (.num res.SNWE.W)) := by
  simp only [gridAttrs]
  rw [getVal_setKey_ne _ _ _ _ (by decide), getVal_setKey_ne _ _ _ _ (by decide),
      getVal_setKey_ne _ _ _ _ (by decide), getVal_setKey_ne _ _ _ _ (by decide),
      getVal_setKey_self]

theorem getVal_gridAttrs_Y_STEP (m : AttributeMap) (res : ResampleObj) :
    getVal (gridAttrs m res) "Y_STEP" = some (.float (.num res.laloStep.1)) := by
  simp only [gridAttrs]
  rw [getVal_setKey_ne _ _ _ _ (by decide), getVal_setKey_ne _ _ _ _ (by decide),
      getVal_setKey_ne _ _ _ _ (by decide), getVal_setKey_self]

theorem getVal_gridAttrs_X_STEP (m : AttributeMap) (res : ResampleObj) :
    getVal (gridAttrs m res) "X_STEP" = some (.float (.num res.laloStep.2)) := by
  simp only [gridAttrs]
  rw [getVal_setKey_ne _ _ _ _ (by decide), getVal_setKey_ne _ _ _ _ (by decide),
      getVal_setKey_self]

theorem getVal_gridAttrs_Y_UNIT (m : AttributeMap) (res : ResampleObj) :
    getVal (gridAttrs m res) "Y_UNIT" = some (.str "degrees") := by
  simp only [gridAttrs]
  rw [getVal_setKey_ne _ _ _ _ (by decide), getVal_setKey_self]

theorem getVal_gridAttrs_X_UNIT (m : AttributeMap) (res : ResampleObj) :
    getVal (gridAttrs m res) "X_UNIT" = some (.str "degrees") := by
  simp only [gridAttrs]
  rw [getVal_setKey_self]

/-! ### Claims -/

theorem geo2radar_def (m : AttributeMap) (res : ResampleObj) :
    metadata_geo2radar m res =
      geo2radarRemovalKeys.foldl popIfPresent
        (setKey (setKey m "LENGTH" (.int res.length)) "WIDTH" (.int res.width)) := rfl

theorem hasKey_geo2radar_removed (m : AttributeMap) (res : ResampleObj) (k : String)
    (hk : k ∈ geo2radarRemovalKeys) : hasKey (metadata_geo2radar m res) k = false := by
  rw [geo2radar_def, hasKey_foldl_pop]
  simp [hk]

theorem hasKey_geo2radar_LENGTH (m : AttributeMap) (res : ResampleObj) :
    getVal (metadata_geo2radar m res) "LENGTH" = some (.int res.length) := by
  rw [geo2radar_def, getVal_foldl_pop_not_mem _ _ _ (by decide),
      getVal_setKey_ne _ _ _ _ (by decide), getVal_setKey_self]

theorem hasKey_geo2radar_WIDTH (m : AttributeMap) (res : ResampleObj) :
    getVal (metadata_geo2radar m res) "WIDTH" = some (.int res.width) := by
  rw [geo2radar_def, getVal_foldl_pop_not_mem _ _ _ (by decide), getVal_setKey_self]

/-- Claim C7: for any input `AttributeMap` (in particular any one lacking
`Y_FIRST`) and fixed geometry, `metadata_geo2radar` is idempotent —
applying it twice yields the same map as applying it once; the ten keys
`Y_FIRST`, `X_FIRST`, `Y_STEP`, `X_STEP`, `Y_UNIT`, `X_UNIT`, `REF_Y`,
`REF_X`, `REF_LAT`, `REF_LON` are absent from the output (removal of an
absent key is a no-op, not an error), and `LENGTH`/`WIDTH` equal the
geometry's grid size. -/
theorem claim_C7_geo2radar_idempotent (m : AttributeMap) (res : ResampleObj) :
    metadata_geo2radar (metadata_geo2radar m res) res = metadata_geo2radar m res ∧
    hasKey (metadata_geo2radar m res) "Y_FIRST" = false ∧
    hasKey (metadata_geo2radar m res) "X_FIRST" = false ∧
    hasKey (metadata_geo2radar m res) "Y_STEP" = false ∧
    hasKey (metadata_geo2radar m res) "X_STEP" = false ∧
    hasKey (metadata_geo2radar m res) "Y_UNIT" = false ∧
    hasKey (metadata_geo2radar m res) "X_UNIT" = false ∧
    hasKey (metadata_geo2radar m res) "REF_Y" = false ∧
    hasKey (metadata_geo2radar m res) "REF_X" = false ∧
    hasKey (metadata_geo2radar m res) "REF_LAT" = false ∧
    hasKey (metadata_geo2radar m res) "REF_LON" = false ∧
    getVal (metadata_geo2radar m res) "LENGTH" = some (.int res.length) ∧
    getVal (metadata_geo2radar m res) "WIDTH" = some (.int res.width) := by
  refine ⟨?_, hasKey_geo2radar_removed m res _ (by decide),
    hasKey_geo2radar_removed m res _ (by decide),
    hasKey_geo2radar_removed m res _ (by decide),
    hasKey_geo2radar_removed m res _ (by decide),
    hasKey_geo2radar_removed m res _ (by decide),
    hasKey_geo2radar_removed m res _ (by decide),
    hasKey_geo2radar_removed m res _ (by decide),
    hasKey_geo2radar_removed m res _ (by decide),
    hasKey_geo2radar_removed m res _ (by decide),
    hasKey_geo2radar_removed m res _ (by decide),
    hasKey_geo2radar_LENGTH m res, hasKey_geo2radar_WIDTH m res⟩
  have hL : hasKey (metadata_geo2radar m res) "LENGTH" = true := by
    rw [hasKey_eq_isSome_getVal, hasKey_geo2radar_LENGTH]
    rfl
  have hW : hasKey (metadata_geo2radar m res) "WIDTH" = true := by
    rw [hasKey_eq_isSome_getVal, hasKey_geo2radar_WIDTH]
    rfl
  have haL : ∀ p ∈ metadata_geo2radar m res, p.1 = "LENGTH" → p.2 = .int res.length := by
    rw [geo2radar_def]
    exact allVal_foldl_pop _ _ _ _
      (allVal_setKey_ne _ _ _ _ _ (by decide) (allVal_setKey_self _ _ _))
  have haW : ∀ p ∈ metadata_geo2radar m res, p.1 = "WIDTH" → p.2 = .int res.width := by
    rw [geo2radar_def]
    exact allVal_foldl_pop _ _ _ _ (allVal_setKey_self _ _ _)
  conv_lhs => rw [geo2radar_def]
  rw [setKey_eq_self _ _ _ hL haL]
  rw [setKey_eq_self _ _ _ hW haW]
  exact foldl_pop_absent _ _ (fun k hk => hasKey_geo2radar_removed m res k hk)

theorem mem_tryPop2 (m : AttributeMap) (k1 k2 : String)
    (p : String × AttrVal) (hp : p ∈ tryPop2 m k1 k2) : p ∈ m := by
  unfold tryPop2 at hp
  by_cases h : hasKey m k1
  · rw [if_pos h] at hp
    exact mem_popIfPresent _ _ _ (mem_popIfPresent _ _ _ hp)
  · rw [if_neg h] at hp
    exact hp

theorem forall_mem_setKey (P : String × AttrVal → Prop) (m : AttributeMap)
    (k : String) (v : AttrVal) (hm : ∀ p ∈ m, P p) (hv : P (k, v)) :
    ∀ p ∈ setKey m k v, P p := by
  intro p hp
  rcases mem_setKey m k v p hp with h | h
  · exact h ▸ hv
  · exact hm p h

theorem forall_mem_gridAttrs (P : String × AttrVal → Prop) (m : AttributeMap)
    (res : ResampleObj) (hm : ∀ p ∈ m, P p)
    (h1 : P ("LENGTH", .int res.length)) (h2 : P ("WIDTH", .int res.width))
    (h3 : P ("Y_FIRST", .float (.num res.SNWE.N)))
    (h4 : P ("X_FIRST", .float (.num res.SNWE.W)))
    (h5 : P ("Y_STEP", .float (.num res.laloStep.1)))
    (h6 : P ("X_STEP", .float (.num res.laloStep.2)))
    (h7 : P ("Y_UNIT", .str "degrees")) (h8 : P ("X_UNIT", .str "degrees")) :
    ∀ p ∈ gridAttrs m res, P p := by
  simp only [gridAttrs]
  exact forall_mem_setKey P _ _ _
    (forall_mem_setKey P _ _ _
      (forall_mem_setKey P _ _ _
        (forall_mem_setKey P _ _ _
          (forall_mem_setKey P _ _ _
            (forall_mem_setKey P _ _ _
              (forall_mem_setKey P _ _ _
                (forall_mem_setKey P _ _ _ hm h1) h2) h3) h4) h5) h6) h7) h8

theorem forall_mem_foldl_pop (P : String × AttrVal → Prop) (m : AttributeMap)
    (ks : List String) (hm : ∀ p ∈ m, P p) : ∀ p ∈ ks.foldl popIfPresent m, P p := by
  induction ks generalizing m with
  | nil => exact hm
  | cons a t ih =>
    simp only [List.foldl_cons]
    exact ih (popIfPresent m a) (fun p hp => hm p (mem_popIfPresent m a p hp))

/-- Every entry of a successful `metadata_radar2geo` output either carries a
string value (written by the reference-relocation block) or comes from the
grid-write prefix. -/
theorem mem_radar2geo (m : AttributeMap) (res : ResampleObj)
    (rg : ℤ → ℤ → PyFloat × PyFloat) (out : AttributeMap)
    (hout : metadata_radar2geo m res rg = some out) :
    ∀ p ∈ out, p.2.isStr = true ∨ p ∈ gridAttrs m res := by
  intro p hp
  have hY := getVal_gridAttrs_Y_FIRST m res
  have hX := getVal_gridAttrs_X_FIRST m res
  have hYS := getVal_gridAttrs_Y_STEP m res
  have hXS := getVal_gridAttrs_X_STEP m res
  simp only [metadata_radar2geo] at hout
  generalize hga : gridAttrs m res = ga at hout hY hX hYS hXS ⊢
  split at hout
  · split at hout
    · rw [hY, hX, hYS, hXS] at hout
      by_cases hz : res.laloStep.1 = 0 ∨ res.laloStep.2 = 0
      · simp only [Option.some_bind, AttrVal.toFloat?, if_pos hz] at hout
        split at hout
        · exact Option.noConfusion hout
        · cases hout
          exact Or.inr (mem_tryPop2 _ _ _ p (mem_tryPop2 _ _ _ p hp))
      · simp only [Option.some_bind, AttrVal.toFloat?, if_neg hz] at hout
        split at hout
        · rw [Option.some.injEq] at hout
          subst hout
          rcases mem_setKey _ _ _ p hp with he | hp2
          · exact Or.inl (by rw [he]; rfl)
          rcases mem_setKey _ _ _ p hp2 with he | hp3
          · exact Or.inl (by rw [he]; rfl)
          rcases mem_setKey _ _ _ p hp3 with he | hp4
          · exact Or.inl (by rw [he]; rfl)
          rcases mem_setKey _ _ _ p hp4 with he | hp5
          · exact Or.inl (by rw [he]; rfl)
          exact Or.inr hp5
        · cases hout
          exact Or.inr (mem_tryPop2 _ _ _ p (mem_tryPop2 _ _ _ p hp))
    · exact Option.noConfusion hout
  · cases hout
    exact Or.inr hp

/-- The six keys to which the transforms write non-string (numeric)
values. -/
def numericGridKeys : List String :=
  ["LENGTH", "WIDTH", "Y_FIRST", "X_FIRST", "Y_STEP", "X_STEP"]

def c8Atr : AttributeMap := [("UNIT", AttrVal.str "m")]

def c8Res : ResampleObj :=
  { length := 5, width := 6, SNWE := ⟨0, 1, 2, 3⟩, laloStep := (1, 1), file := "lut.h5" }

/-- Claim C8 (counterexample): an input `AttributeMap` whose values are all
strings is mapped by `metadata_geo2radar` to a map that is NOT
string-valued — `LENGTH` and `WIDTH` are written as ints (and
`metadata_radar2geo` likewise writes numeric `LENGTH`, `WIDTH`,
`Y_FIRST`, `X_FIRST`, `Y_STEP`, `X_STEP`), refuting the claim that the
output is again a mapping from string keys to string values. -/
theorem claim_C8_counterexample :
    (∀ p ∈ c8Atr, p.2.isStr = true) ∧
    ¬(∀ p ∈ metadata_geo2radar c8Atr c8Res, p.2.isStr = true) := by
  constructor
  · decide
  · intro h
    exact absurd (h ("LENGTH", .int 5) (by decide)) (by decide)

/-- Claim C8 (amended): for an input `AttributeMap` whose values are all
strings, every value written by either transform is a string EXCEPT at the
numeric grid keys: `metadata_geo2radar` output values are strings except
at `LENGTH`/`WIDTH`, and `metadata_radar2geo` output values are strings
except at `LENGTH`, `WIDTH`, `Y_FIRST`, `X_FIRST`, `Y_STEP`, `X_STEP`
(which receive the geometry's numbers). -/
theorem claim_C8_amended_value_types (m : AttributeMap) (res : ResampleObj)
    (rg : ℤ → ℤ → PyFloat × PyFloat)
    (hall : ∀ p ∈ m, p.2.isStr = true) :
    (∀ p ∈ metadata_geo2radar m res,
        p.2.isStr = true ∨ p.1 = "LENGTH" ∨ p.1 = "WIDTH") ∧
    (∀ out, metadata_radar2geo m res rg = some out →
        ∀ p ∈ out, p.2.isStr = true ∨ p.1 ∈ numericGridKeys) := by
  constructor
  · rw [geo2radar_def]
    exact forall_mem_foldl_pop _ _ _
      (forall_mem_setKey _ _ _ _
        (forall_mem_setKey _ _ _ _ (fun p hp => Or.inl (hall p hp))
          (Or.inr (Or.inl rfl)))
        (Or.inr (Or.inr rfl)))
  · intro out hout p hp
    rcases mem_radar2geo m res rg out hout p hp with h | h
    · exact Or.inl h
    · exact forall_mem_gridAttrs
        (fun q => q.2.isStr = true ∨ q.1 ∈ numericGridKeys) m res
        (fun q hq => Or.inl (hall q hq))
        (Or.inr (by simp [numericGridKeys])) (Or.inr (by simp [numericGridKeys]))
        (Or.inr (by simp [numericGridKeys])) (Or.inr (by simp [numericGridKeys]))
        (Or.inr (by simp [numericGridKeys])) (Or.inr (by simp [numericGridKeys]))
        (Or.inl rfl) (Or.inl rfl) p h

/-- Claim C8 witness: the amended theorem applied to the concrete all-string
map `c8Atr`. -/
theorem claim_C8_amended_value_types_witness :
    (∀ p ∈ c8Atr, p.2.isStr = true) ∧
    (∀ p ∈ metadata_geo2radar c8Atr c8Res,
        p.2.isStr = true ∨ p.1 = "LENGTH" ∨ p.1 = "WIDTH") :=
  ⟨by decide,
   (claim_C8_amended_value_types c8Atr c8Res (fun _ _ => (.num 0, .num 0))
      (by decide)).1⟩

/-- Claim C5 (amended): for an input map containing integer-parsable `REF_Y`
and `REF_X`, when the coordinate lookup yields NaN for the reference
latitude or longitude, `metadata_radar2geo` does not raise; it drops
`REF_Y` and `REF_X`, drops `REF_LAT` whenever present, but drops `REF_LON`
only when `REF_LAT` was also present — a `REF_LON` present without
`REF_LAT` survives in the output (the `KeyError` from popping the absent
`REF_LAT` skips the `REF_LON` pop). -/
theorem claim_C5_amended_nan_drops (m : AttributeMap) (res : ResampleObj)
    (rg : ℤ → ℤ → PyFloat × PyFloat) (vy vx : AttrVal) (ry rx : ℤ)
    (la lo : PyFloat)
    (hy : getVal m "REF_Y" = some vy) (hyi : vy.toInt? = some ry)
    (hx : getVal m "REF_X" = some vx) (hxi : vx.toInt? = some rx)
    (hres : rg ry rx = (la, lo)) (hnan : la = .nan ∨ lo = .nan) :
    ∃ out, metadata_radar2geo m res rg = some out ∧
      hasKey out "REF_Y" = false ∧ hasKey out "REF_X" = false ∧
      hasKey out "REF_LAT" = false ∧
      hasKey out "REF_LON" = (hasKey m "REF_LON" && !(hasKey m "REF_LAT")) := by
  have hgy : (getVal (gridAttrs m res) "REF_Y").bind AttrVal.toInt? = some ry := by
    rw [getVal_gridAttrs_not_mem m res _ (by decide), hy, Option.some_bind, hyi]
  have hgx : (getVal (gridAttrs m res) "REF_X").bind AttrVal.toInt? = some rx := by
    rw [getVal_gridAttrs_not_mem m res _ (by decide), hx, Option.some_bind, hxi]
  have hk : hasKey (gridAttrs m res) "REF_Y" = true := by
    rw [hasKey_gridAttrs_not_mem m res _ (by decide), hasKey_eq_isSome_getVal, hy]
    rfl
  have hkx : hasKey (gridAttrs m res) "REF_X" = hasKey m "REF_X" :=
    hasKey_gridAttrs_not_mem m res _ (by decide)
  have hkLat : hasKey (gridAttrs m res) "REF_LAT" = hasKey m "REF_LAT" :=
    hasKey_gridAttrs_not_mem m res _ (by decide)
  have hkLon : hasKey (gridAttrs m res) "REF_LON" = hasKey m "REF_LON" :=
    hasKey_gridAttrs_not_mem m res _ (by decide)
  have hrun : metadata_radar2geo m res rg =
      some (tryPop2 (tryPop2 (gridAttrs m res) "REF_Y" "REF_X")
        "REF_LAT" "REF_LON") := by
    simp only [metadata_radar2geo]
    rw [if_pos hk, hgy, hgx]
    show (match rg ry rx with
      | (.num ref_lat, .num ref_lon) =>
        match (getVal (gridAttrs m res) "Y_FIRST").bind AttrVal.toFloat?,
              (getVal (gridAttrs m res) "X_FIRST").bind AttrVal.toFloat?,
              (getVal (gridAttrs m res) "Y_STEP").bind AttrVal.toFloat?,
              (getVal (gridAttrs m res) "X_STEP").bind AttrVal.toFloat? with
        | some (.num yf), some (.num xf), some (.num ys), some (.num xs) =>
          if ys = 0 ∨ xs = 0 then none
          else
            some (setKey (setKey (setKey (setKey (gridAttrs m res)
              "REF_LAT" (.str (pyFloatStr ref_lat)))
              "REF_LON" (.str (pyFloatStr ref_lon)))
              "REF_Y" (.str (pyIntStr (rint ((ref_lat - yf) / ys)))))
              "REF_X" (.str (pyIntStr (rint ((ref_lon - xf) / xs)))))
        | _, _, _, _ => none
      | _ => some (tryPop2 (tryPop2 (gridAttrs m res) "REF_Y" "REF_X")
               "REF_LAT" "REF_LON")) =
      some (tryPop2 (tryPop2 (gridAttrs m res) "REF_Y" "REF_X")
        "REF_LAT" "REF_LON")
    rw [hres]
    rcases hnan with h | h
    · subst h
      rfl
    · subst h
      cases la <;> rfl
  have ht1 : tryPop2 (gridAttrs m res) "REF_Y" "REF_X" =
      popIfPresent (popIfPresent (gridAttrs m res) "REF_Y") "REF_X" := by
    unfold tryPop2
    rw [if_pos hk]
  refine ⟨_, hrun, ?_, ?_, ?_, ?_⟩
  · show hasKey (tryPop2 (tryPop2 (gridAttrs m res) "REF_Y" "REF_X")
      "REF_LAT" "REF_LON") "REF_Y" = false
    rw [ht1]
    unfold tryPop2
    split
    · rw [hasKey_popIfPresent_ne _ _ _ (by decide),
        hasKey_popIfPresent_ne _ _ _ (by decide),
        hasKey_popIfPresent_ne _ _ _ (by decide), hasKey_popIfPresent_self]
    · rw [hasKey_popIfPresent_ne _ _ _ (by decide), hasKey_popIfPresent_self]
  · show hasKey (tryPop2 (tryPop2 (gridAttrs m res) "REF_Y" "REF_X")
      "REF_LAT" "REF_LON") "REF_X" = false
    rw [ht1]
    unfold tryPop2
    split
    · rw [hasKey_popIfPresent_ne _ _ _ (by decide),
        hasKey_popIfPresent_ne _ _ _ (by decide), hasKey_popIfPresent_self]
    · rw [hasKey_popIfPresent_self]
  · show hasKey (tryPop2 (tryPop2 (gridAttrs m res) "REF_Y" "REF_X")
      "REF_LAT" "REF_LON") "REF_LAT" = false
    rw [ht1]
    unfold tryPop2
    split
    · rw [hasKey_popIfPresent_ne _ _ _ (by decide), hasKey_popIfPresent_self]
    · next hno =>
      rw [hasKey_popIfPresent_ne _ _ _ (by decide),
          hasKey_popIfPresent_ne _ _ _ (by decide), hkLat] at hno ⊢
      simpa using hno
  · show hasKey (tryPop2 (tryPop2 (gridAttrs m res) "REF_Y" "REF_X")
      "REF_LAT" "REF_LON") "REF_LON" =
      (hasKey m "REF_LON" && !(hasKey m "REF_LAT"))
    rw [ht1]
    unfold tryPop2
    split
    · next hyes =>
      rw [hasKey_popIfPresent_ne _ _ _ (by decide),
          hasKey_popIfPresent_ne _ _ _ (by decide), hkLat] at hyes
      rw [hasKey_popIfPresent_self, hyes]
      simp
    · next hno =>
      rw [hasKey_popIfPresent_ne _ _ _ (by decide),
          hasKey_popIfPresent_ne _ _ _ (by decide), hkLat] at hno
      rw [hasKey_popIfPresent_ne _ _ _ (by decide),
          hasKey_popIfPresent_ne _ _ _ (by decide), hkLon]
      simp only [Bool.not_eq_true] at hno
      rw [hno]
      simp

def c5Atr : AttributeMap :=
  [("REF_Y", AttrVal.str "10"), ("REF_X", AttrVal.str "20"),
   ("REF_LON", AttrVal.str "0")]

def c5Rg : ℤ → ℤ → PyFloat × PyFloat := fun _ _ => (.nan, .nan)

/-- Claim C5 (counterexample): on an input containing `REF_Y`, `REF_X` and
`REF_LON` but no `REF_LAT`, with a lookup yielding NaN, the transform does
not raise but `REF_LON` is NOT dropped — refuting "all four keys REF_Y,
REF_X, REF_LAT, REF_LON are dropped entirely (regardless of which of them
were present in the input)". -/
theorem claim_C5_counterexample :
    (metadata_radar2geo c5Atr c8Res c5Rg).isSome = true ∧
    hasKey ((metadata_radar2geo c5Atr c8Res c5Rg).getD []) "REF_LON" = true := by
  decide

/-- Claim C5 witness: the amended theorem applied at the concrete
counterexample input. -/
theorem claim_C5_amended_nan_drops_witness :
    getVal c5Atr "REF_Y" = some (AttrVal.str "10") ∧
    (∃ out, metadata_radar2geo c5Atr c8Res c5Rg = some out ∧
      hasKey out "REF_Y" = false ∧ hasKey out "REF_X" = false ∧
      hasKey out "REF_LAT" = false ∧
      hasKey out "REF_LON" = (hasKey c5Atr "REF_LON" && !(hasKey c5Atr "REF_LAT"))) :=
  ⟨by decide,
   claim_C5_amended_nan_drops c5Atr c8Res c5Rg (AttrVal.str "10") (AttrVal.str "20")
     10 20 .nan .nan (by decide) (by decide) (by decide) (by decide) rfl
     (Or.inl rfl)⟩

/-- The twelve keys (re)written or managed by `metadata_radar2geo`. -/
def radar2geoWrittenKeys : List String :=
  ["LENGTH", "WIDTH", "Y_FIRST", "X_FIRST", "Y_STEP", "X_STEP",
   "Y_UNIT", "X_UNIT", "REF_Y", "REF_X", "REF_LAT", "REF_LON"]

theorem getVal_tryPop2_ne (m : AttributeMap) (k1 k2 k : String)
    (h1 : k ≠ k1) (h2 : k ≠ k2) : getVal (tryPop2 m k1 k2) k = getVal m k := by
  unfold tryPop2
  split
  · rw [getVal_popIfPresent_ne _ _ _ h2, getVal_popIfPresent_ne _ _ _ h1]
  · rfl

/-- A successful `metadata_radar2geo` output has one of three shapes: the
bare grid-write prefix (no `REF_Y` in the input), the NaN-branch pops, or
the relocation writes. -/
theorem radar2geo_cases (m : AttributeMap) (res : ResampleObj)
    (rg : ℤ → ℤ → PyFloat × PyFloat) (out : AttributeMap)
    (hout : metadata_radar2geo m res rg = some out) :
    out = gridAttrs m res ∨
    out = tryPop2 (tryPop2 (gridAttrs m res) "REF_Y" "REF_X")
      "REF_LAT" "REF_LON" ∨
    ∃ la lo, out = setKey (setKey (setKey (setKey (gridAttrs m res)
      "REF_LAT" (.str (pyFloatStr la)))
      "REF_LON" (.str (pyFloatStr lo)))
      "REF_Y" (.str (pyIntStr (rint ((la - res.SNWE.N) / res.laloStep.1)))))
      "REF_X" (.str (pyIntStr (rint ((lo - res.SNWE.W) / res.laloStep.2)))) := by
  have hY := getVal_gridAttrs_Y_FIRST m res
  have hX := getVal_gridAttrs_X_FIRST m res
  have hYS := getVal_gridAttrs_Y_STEP m res
  have hXS := getVal_gridAttrs_X_STEP m res
  simp only [metadata_radar2geo] at hout
  generalize hga : gridAttrs m res = ga at hout hY hX hYS hXS ⊢
  split at hout
  · split at hout
    · rw [hY, hX, hYS, hXS] at hout
      by_cases hz : res.laloStep.1 = 0 ∨ res.laloStep.2 = 0
      · simp only [Option.some_bind, AttrVal.toFloat?, if_pos hz] at hout
        split at hout
        · exact Option.noConfusion hout
        · cases hout
          exact Or.inr (Or.inl rfl)
      · simp only [Option.some_bind, AttrVal.toFloat?, if_neg hz] at hout
        split at hout
        · rw [Option.some.injEq] at hout
          subst hout
          exact Or.inr (Or.inr ⟨_, _, rfl⟩)
        · cases hout
          exact Or.inr (Or.inl rfl)
    · exact Option.noConfusion hout
  · cases hout
    exact Or.inl rfl

/-- At every key other than the four reference keys, a successful
`metadata_radar2geo` output agrees with the grid-write prefix. -/
theorem getVal_radar2geo_grid (m : AttributeMap) (res : ResampleObj)
    (rg : ℤ → ℤ → PyFloat × PyFloat) (out : AttributeMap)
    (hout : metadata_radar2geo m res rg = some out) (k : String)
    (hk : k ∉ (["REF_Y", "REF_X", "REF_LAT", "REF_LON"] : List String)) :
    getVal out k = getVal (gridAttrs m res) k := by
  simp only [List.mem_cons, List.not_mem_nil, or_false, not_or] at hk
  obtain ⟨h1, h2, h3, h4⟩ := hk
  rcases radar2geo_cases m res rg out hout with h | h | ⟨la, lo, h⟩
  · rw [h]
  · rw [h, getVal_tryPop2_ne _ _ _ _ h3 h4, getVal_tryPop2_ne _ _ _ _ h1 h2]
  · rw [h, getVal_setKey_ne _ _ _ _ h2, getVal_setKey_ne _ _ _ _ h1,
        getVal_setKey_ne _ _ _ _ h4, getVal_setKey_ne _ _ _ _ h3]

/-- Claim C6: for EVERY input map, a successful `metadata_radar2geo` run
copies all input keys and overwrites `LENGTH`/`WIDTH` with the geometry's
grid size, `Y_FIRST`/`X_FIRST` with the northern/western bounding-box
edge, `Y_STEP`/`X_STEP` with the resolved grid step and
`Y_UNIT`/`X_UNIT` with `degrees`; a map without `REF_Y` always succeeds
with exactly the grid writes; and when the reference pixel relocates
successfully, the new integer grid index on each axis is
`rint((value - origin) / step)` with origin and step taken from the new
geo grid. -/
theorem claim_C6_radar2geo_fields (m : AttributeMap) (res : ResampleObj)
    (rg : ℤ → ℤ → PyFloat × PyFloat) :
    (∀ out, metadata_radar2geo m res rg = some out →
      getVal out "LENGTH" = some (.int res.length) ∧
      getVal out "WIDTH" = some (.int res.width) ∧
      getVal out "Y_FIRST" = some (.float (.num res.SNWE.N)) ∧
      getVal out "X_FIRST" = some (.float (.num res.SNWE.W)) ∧
      getVal out "Y_STEP" = some (.float (.num res.laloStep.1)) ∧
      getVal out "X_STEP" = some (.float (.num res.laloStep.2)) ∧
      getVal out "Y_UNIT" = some (.str "degrees") ∧
      getVal out "X_UNIT" = some (.str "degrees") ∧
      (∀ k, k ∉ radar2geoWrittenKeys → getVal out k = getVal m k)) ∧
    (hasKey m "REF_Y" = false →
      metadata_radar2geo m res rg = some (gridAttrs m res)) ∧
    (∀ vy vx ry rx la lo,
      getVal m "REF_Y" = some vy → vy.toInt? = some ry →
      getVal m "REF_X" = some vx → vx.toInt? = some rx →
      rg ry rx = (.num la, .num lo) →
      res.laloStep.1 ≠ 0 → res.laloStep.2 ≠ 0 →
      ∃ out, metadata_radar2geo m res rg = some out ∧
        getVal out "REF_LAT" = some (.str (pyFloatStr la)) ∧
        getVal out "REF_LON" = some (.str (pyFloatStr lo)) ∧
        getVal out "REF_Y" =
          some (.str (pyIntStr (rint ((la - res.SNWE.N) / res.laloStep.1)))) ∧
        getVal out "REF_X" =
          some (.str (pyIntStr (rint ((lo - res.SNWE.W) / res.laloStep.2))))) := by
  refine ⟨?_, ?_, ?_⟩
  · intro out hout
    have hg : ∀ k, k ∉ (["REF_Y", "REF_X", "REF_LAT", "REF_LON"] : List String) →
        getVal out k = getVal (gridAttrs m res) k :=
      fun k hk => getVal_radar2geo_grid m res rg out hout k hk
    refine ⟨?_, ?_, ?_, ?_, ?_, ?_, ?_, ?_, ?_⟩
    · rw [hg "LENGTH" (by decide), getVal_gridAttrs_LENGTH]
    · rw [hg "WIDTH" (by decide), getVal_gridAttrs_WIDTH]
    · rw [hg "Y_FIRST" (by decide), getVal_gridAttrs_Y_FIRST]
    · rw [hg "X_FIRST" (by decide), getVal_gridAttrs_X_FIRST]
    · rw [hg "Y_STEP" (by decide), getVal_gridAttrs_Y_STEP]
    · rw [hg "X_STEP" (by decide), getVal_gridAttrs_X_STEP]
    · rw [hg "Y_UNIT" (by decide), getVal_gridAttrs_Y_UNIT]
    · rw [hg "X_UNIT" (by decide), getVal_gridAttrs_X_UNIT]
    · intro k hk
      simp only [radar2geoWrittenKeys, List.mem_cons, List.not_mem_nil, or_false,
        not_or] at hk
      obtain ⟨n1, n2, n3, n4, n5, n6, n7, n8, n9, n10, n11, n12⟩ := hk
      have hrefs : k ∉ (["REF_Y", "REF_X", "REF_LAT", "REF_LON"] : List String) := by
        simp only [List.mem_cons, List.not_mem_nil, or_false, not_or]
        exact ⟨n9, n10, n11, n12⟩
      have hgrid : k ∉ gridKeys := by
        simp only [gridKeys, List.mem_cons, List.not_mem_nil, or_false, not_or]
        exact ⟨n1, n2, n3, n4, n5, n6, n7, n8⟩
      rw [hg k hrefs, getVal_gridAttrs_not_mem m res k hgrid]
  · intro hno
    simp only [metadata_radar2geo]
    rw [if_neg (by
      rw [hasKey_gridAttrs_not_mem m res "REF_Y" (by decide), hno]
      decide)]
  · intro vy vx ry rx la lo hy hyi hx hxi hres hys hxs
    have hgy : (getVal (gridAttrs m res) "REF_Y").bind AttrVal.toInt? = some ry := by
      rw [getVal_gridAttrs_not_mem m res _ (by decide), hy, Option.some_bind, hyi]
    have hgx : (getVal (gridAttrs m res) "REF_X").bind AttrVal.toInt? = some rx := by
      rw [getVal_gridAttrs_not_mem m res _ (by decide), hx, Option.some_bind, hxi]
    have hk : hasKey (gridAttrs m res) "REF_Y" = true := by
      rw [hasKey_gridAttrs_not_mem m res _ (by decide), hasKey_eq_isSome_getVal, hy]
      rfl
    have hz : ¬(res.laloStep.1 = 0 ∨ res.laloStep.2 = 0) := fun h => h.elim hys hxs
    have hrun : metadata_radar2geo m res rg =
        some (setKey (setKey (setKey (setKey (gridAttrs m res)
          "REF_LAT" (.str (pyFloatStr la)))
          "REF_LON" (.str (pyFloatStr lo)))
          "REF_Y" (.str (pyIntStr (rint ((la - res.SNWE.N) / res.laloStep.1)))))
          "REF_X" (.str (pyIntStr (rint ((lo - res.SNWE.W) / res.laloStep.2))))) := by
      simp only [metadata_radar2geo]
      rw [if_pos hk, hgy, hgx]
      show (match rg ry rx with
        | (.num ref_lat, .num ref_lon) =>
          match (getVal (gridAttrs m res) "Y_FIRST").bind AttrVal.toFloat?,
                (getVal (gridAttrs m res) "X_FIRST").bind AttrVal.toFloat?,
                (getVal (gridAttrs m res) "Y_STEP").bind AttrVal.toFloat?,
                (getVal (gridAttrs m res) "X_STEP").bind AttrVal.toFloat? with
          | some (.num yf), some (.num xf), some (.num ys), some (.num xs) =>
            if ys = 0 ∨ xs = 0 then none
            else
              some (setKey (setKey (setKey (setKey (gridAttrs m res)
                "REF_LAT" (.str (pyFloatStr ref_lat)))
                "REF_LON" (.str (pyFloatStr ref_lon)))
                "REF_Y" (.str (pyIntStr (rint ((ref_lat - yf) / ys)))))
                "REF_X" (.str (pyIntStr (rint ((ref_lon - xf) / xs)))))
          | _, _, _, _ => none
        | _ => some (tryPop2 (tryPop2 (gridAttrs m res) "REF_Y" "REF_X")
                 "REF_LAT" "REF_LON")) = _
      rw [hres]
      show (match (getVal (gridAttrs m res) "Y_FIRST").bind AttrVal.toFloat?,
                (getVal (gridAttrs m res) "X_FIRST").bind AttrVal.toFloat?,
                (getVal (gridAttrs m res) "Y_STEP").bind AttrVal.toFloat?,
                (getVal (gridAttrs m res) "X_STEP").bind AttrVal.toFloat? with
          | some (.num yf), some (.num xf), some (.num ys), some (.num xs) =>
            if ys = 0 ∨ xs = 0 then none
            else
              some (setKey (setKey (setKey (setKey (gridAttrs m res)
                "REF_LAT" (.str (pyFloatStr la)))
                "REF_LON" (.str (pyFloatStr lo)))
                "REF_Y" (.str (pyIntStr (rint ((la - yf) / ys)))))
                "REF_X" (.str (pyIntStr (rint ((lo - xf) / xs)))))
          | _, _, _, _ => none) = _
      rw [getVal_gridAttrs_Y_FIRST, getVal_gridAttrs_X_FIRST,
          getVal_gridAttrs_Y_STEP, getVal_gridAttrs_X_STEP]
      show (if res.laloStep.1 = 0 ∨ res.laloStep.2 = 0 then none
        else some (setKey (setKey (setKey (setKey (gridAttrs m res)
          "REF_LAT" (.str (pyFloatStr la)))
          "REF_LON" (.str (pyFloatStr lo)))
          "REF_Y" (.str (pyIntStr (rint ((la - res.SNWE.N) / res.laloStep.1)))))
          "REF_X" (.str (pyIntStr (rint ((lo - res.SNWE.W) / res.laloStep.2)))))) = _
      rw [if_neg hz]
    refine ⟨_, hrun, ?_, ?_, ?_, ?_⟩
    · rw [getVal_setKey_ne _ _ _ _ (by decide), getVal_setKey_ne _ _ _ _ (by decide),
          getVal_setKey_ne _ _ _ _ (by decide), getVal_setKey_self]
    · rw [getVal_setKey_ne _ _ _ _ (by decide), getVal_setKey_ne _ _ _ _ (by decide),
          getVal_setKey_self]
    · rw [getVal_setKey_ne _ _ _ _ (by decide), getVal_setKey_self]
    · rw [getVal_setKey_self]

def c6Atr : AttributeMap :=
  [("REF_Y", AttrVal.str "10"), ("REF_X", AttrVal.str "20"),
   ("DATE", AttrVal.str "20170101")]

def c6NoRefAtr : AttributeMap := [("DATE", AttrVal.str "20170101")]

def c6Rg : ℤ → ℤ → PyFloat × PyFloat := fun _ _ => (.num 2, .num 3)

/-- Claim C6 witness: the field theorem applied at concrete inputs — a map
without `REF_Y` (the run succeeds and the universal grid clause applies
to its output) and a map whose reference pixel relocates successfully. -/
theorem claim_C6_radar2geo_fields_witness :
    metadata_radar2geo c6NoRefAtr c8Res c6Rg = some (gridAttrs c6NoRefAtr c8Res) ∧
    getVal (gridAttrs c6NoRefAtr c8Res) "LENGTH" = some (AttrVal.int c8Res.length) ∧
    getVal c6Atr "REF_Y" = some (AttrVal.str "10") ∧
    (∃ out, metadata_radar2geo c6Atr c8Res c6Rg = some out ∧
      getVal out "REF_LAT" = some (.str (pyFloatStr 2)) ∧
      getVal out "REF_LON" = some (.str (pyFloatStr 3)) ∧
      getVal out "REF_Y" =
        some (.str (pyIntStr (rint ((2 - c8Res.SNWE.N) / c8Res.laloStep.1)))) ∧
      getVal out "REF_X" =
        some (.str (pyIntStr (rint ((3 - c8Res.SNWE.W) / c8Res.laloStep.2))))) :=
  ⟨(claim_C6_radar2geo_fields c6NoRefAtr c8Res c6Rg).2.1 (by decide),
   ((claim_C6_radar2geo_fields c6NoRefAtr c8Res c6Rg).1 _
      ((claim_C6_radar2geo_fields c6NoRefAtr c8Res c6Rg).2.1 (by decide))).1,
   by decide,
   (claim_C6_radar2geo_fields c6Atr c8Res c6Rg).2.2 (AttrVal.str "10")
     (AttrVal.str "20") 10 20 2 3 (by decide) (by decide) (by decide) (by decide)
     rfl (by decide) (by decide)⟩

theorem check_inps_cons (c : Collab) (i : Inps) (f : String) (fs : List String)
    (hf : c.get_file_list i.file = f :: fs) :
    check_inps c i =
      (if hasKey (c.read_attribute f) "Y_FIRST" && i.radar2geo then .noop
       else if !hasKey (c.read_attribute f) "Y_FIRST" && !i.radar2geo then .noop
       else
         match c.get_lookup_file i.lookupFile with
         | none => .error "No lookup table found! Can not geocode without it."
         | some lk =>
           .proceed
             { i with
               file := f :: fs,
               outfile := if fs.length + 1 > 1 then none else i.outfile,
               lookupFile := some lk,
               laloStep :=
                 (match i.latStep, i.lonStep with
                 | some a, some b => some (a, b)
                 | _, _ => none) }) := by
  unfold check_inps
  rw [hf]

/-- Claim C3: when the first input file's `Y_FIRST` flag already matches the
requested direction (present with radar→geo requested, absent with
geo→radar requested), `_check_inps` terminates as `sys.exit(0)` — a
no-output success (`noop`) distinguishable from every raised exception
(`error`); in the two mismatching cases (given a lookup table is found)
processing proceeds. -/
theorem claim_C3_direction_guard (c : Collab) (i : Inps) (f : String)
    (fs : List String) (hf : c.get_file_list i.file = f :: fs) :
    (hasKey (c.read_attribute f) "Y_FIRST" = i.radar2geo →
        check_inps c i = .noop ∧ ∀ msg, check_inps c i ≠ .error msg) ∧
    (hasKey (c.read_attribute f) "Y_FIRST" ≠ i.radar2geo →
        ∀ lk, c.get_lookup_file i.lookupFile = some lk →
          ∃ j, check_inps c i = .proceed j) := by
  have hd := check_inps_cons c i f fs hf
  constructor
  · intro hmatch
    have hnoop : check_inps c i = .noop := by
      rw [hd, hmatch]
      cases hr : i.radar2geo <;> rfl
    exact ⟨hnoop, fun msg h => by
      rw [hnoop] at h
      exact CheckOutcome.noConfusion h⟩
  · intro hmis lk hlk
    refine ⟨{ i with
      file := f :: fs,
      outfile := if fs.length + 1 > 1 then none else i.outfile,
      lookupFile := some lk,
      laloStep :=
        (match i.latStep, i.lonStep with
        | some a, some b => some (a, b)
        | _, _ => none) }, ?_⟩
    rw [hd, hlk]
    cases hk : hasKey (c.read_attribute f) "Y_FIRST" <;> cases hr : i.radar2geo
    · exact absurd (hk.trans hr.symm) hmis
    · rfl
    · rfl
    · exact absurd (hk.trans hr.symm) hmis

/-- Claim C10: the already-in-target-system check runs before lookup-table
resolution — a matching first file yields the `noop` exit for every
lookup resolver (including one that finds nothing), and the
missing-lookup-table error can only arise when the direction check
decided to proceed (and the resolver returned nothing). -/
theorem claim_C10_noop_before_lookup (c : Collab) (i : Inps) (f : String)
    (fs : List String) (hf : c.get_file_list i.file = f :: fs) :
    (hasKey (c.read_attribute f) "Y_FIRST" = i.radar2geo →
        check_inps c i = .noop) ∧
    (check_inps c i = .error "No lookup table found! Can not geocode without it." →
        hasKey (c.read_attribute f) "Y_FIRST" ≠ i.radar2geo ∧
        c.get_lookup_file i.lookupFile = none) := by
  have hd := check_inps_cons c i f fs hf
  constructor
  · intro hmatch
    rw [hd, hmatch]
    cases hr : i.radar2geo <;> rfl
  · intro herr
    rw [hd] at herr
    cases hk : hasKey (c.read_attribute f) "Y_FIRST" <;> cases hr : i.radar2geo <;>
      rw [hk, hr] at herr
    · exact absurd herr (fun h => CheckOutcome.noConfusion h)
    · cases hlk : c.get_lookup_file i.lookupFile with
      | none => exact ⟨by decide, rfl⟩
      | some lk =>
        rw [hlk] at herr
        exact absurd herr (fun h => CheckOutcome.noConfusion h)
    · cases hlk : c.get_lookup_file i.lookupFile with
      | none => exact ⟨by decide, rfl⟩
      | some lk =>
        rw [hlk] at herr
        exact absurd herr (fun h => CheckOutcome.noConfusion h)
    · exact absurd herr (fun h => CheckOutcome.noConfusion h)

def witAtrGeo : AttributeMap := [("Y_FIRST", AttrVal.str "0.5")]

def witCollabLut : Collab :=
  { get_file_list := fun l => l,
    read_attribute := fun _ => witAtrGeo,
    get_lookup_file := fun _ => some "lut.h5" }

def witCollabNoLut : Collab :=
  { get_file_list := fun l => l,
    read_attribute := fun _ => witAtrGeo,
    get_lookup_file := fun _ => none }

def witInpsR2G : Inps := { file := ["velocity.h5"] }

def witInpsG2R : Inps := { file := ["geo_velocity.h5"], radar2geo := false }

/-- Claim C3 witness: the direction-guard theorem applied at concrete
collaborators — a geocoded file with radar→geo requested exits `noop`,
and with geo→radar requested it proceeds. -/
theorem claim_C3_direction_guard_witness :
    check_inps witCollabLut witInpsR2G = .noop ∧
    (∃ j, check_inps witCollabLut witInpsG2R = .proceed j) :=
  ⟨((claim_C3_direction_guard witCollabLut witInpsR2G "velocity.h5" [] rfl).1
      (by decide)).1,
   (claim_C3_direction_guard witCollabLut witInpsG2R "geo_velocity.h5" [] rfl).2
      (by decide) "lut.h5" rfl⟩

/-- Claim C10 witness: with a resolver that finds no lookup table anywhere,
an already-geocoded first file still exits `noop`; and from the concrete
missing-lookup error run the theorem recovers direction mismatch and
resolver failure. -/
theorem claim_C10_noop_before_lookup_witness :
    check_inps witCollabNoLut witInpsR2G = .noop ∧
    (hasKey (witCollabNoLut.read_attribute "geo_velocity.h5") "Y_FIRST" ≠
        witInpsG2R.radar2geo ∧
      witCollabNoLut.get_lookup_file witInpsG2R.lookupFile = none) :=
  ⟨(claim_C10_noop_before_lookup witCollabNoLut witInpsR2G "velocity.h5" [] rfl).1
      (by decide),
   (claim_C10_noop_before_lookup witCollabNoLut witInpsG2R "geo_velocity.h5" []
      rfl).2 (by decide)⟩

theorem read_template2inps_eq (t0 : String → Option String) (i i' : Inps)
    (h : read_template2inps t0 i = some i') :
    ∃ snwe lat lon fv,
      mergeSNWE (check_template_auto_value t0) i.SNWE = some snwe ∧
      mergeStep (check_template_auto_value t0) "latStep" i.latStep = some lat ∧
      mergeStep (check_template_auto_value t0) "lonStep" i.lonStep = some lon ∧
      mergeFill (check_template_auto_value t0) i.fillValue = some fv ∧
      i' = { i with
        SNWE := snwe, latStep := lat, lonStep := lon,
        interpMethod := mergeInterp (check_template_auto_value t0) i.interpMethod,
        fillValue := fv,
        laloStep :=
          (match lat, lon with
          | some a, some b => some (a, b)
          | _, _ => none) } := by
  unfold read_template2inps at h
  cases hs : mergeSNWE (check_template_auto_value t0) i.SNWE with
  | none =>
    rw [hs] at h
    exact Option.noConfusion h
  | some snwe =>
    rw [hs] at h
    cases hlat : mergeStep (check_template_auto_value t0) "latStep" i.latStep with
    | none =>
      rw [hlat] at h
      exact Option.noConfusion h
    | some lat =>
      rw [hlat] at h
      cases hlon : mergeStep (check_template_auto_value t0) "lonStep" i.lonStep with
      | none =>
        rw [hlon] at h
        exact Option.noConfusion h
      | some lon =>
        rw [hlon] at h
        cases hfv : mergeFill (check_template_auto_value t0) i.fillValue with
        | none =>
          rw [hfv] at h
          exact Option.noConfusion h
        | some fv =>
          rw [hfv] at h
          refine ⟨snwe, lat, lon, fv, rfl, rfl, rfl, rfl, ?_⟩
          exact (Option.some.inj h).symm

/-- Claim C4: `laloStep` is present exactly when both `latStep` and
`lonStep` are present, both after template resolution
(`read_template2inps`) and after CLI-only resolution (`_check_inps`):
a single-axis step never reaches the resample engine. -/
theorem claim_C4_gridstep_both_or_neither :
    (∀ (t0 : String → Option String) (i i' : Inps),
        read_template2inps t0 i = some i' →
        (i'.laloStep.isSome ↔ i'.latStep.isSome ∧ i'.lonStep.isSome)) ∧
    (∀ (c : Collab) (j j' : Inps),
        check_inps c j = .proceed j' →
        (j'.laloStep.isSome ↔ j'.latStep.isSome ∧ j'.lonStep.isSome)) := by
  constructor
  · intro t0 i i' h
    obtain ⟨snwe, lat, lon, fv, hs, hlat, hlon, hfv, hi⟩ :=
      read_template2inps_eq t0 i i' h
    subst hi
    cases lat <;> cases lon <;> simp
  · intro c j j' h
    cases hf : c.get_file_list j.file with
    | nil =>
      unfold check_inps at h
      rw [hf] at h
      exact absurd h (fun hh => CheckOutcome.noConfusion hh)
    | cons f fs =>
      rw [check_inps_cons c j f fs hf] at h
      split at h
      · exact absurd h (fun hh => CheckOutcome.noConfusion hh)
      · split at h
        · exact absurd h (fun hh => CheckOutcome.noConfusion hh)
        · split at h
          · exact absurd h (fun hh => CheckOutcome.noConfusion hh)
          · injection h with h
            subst h
            cases j.latStep <;> cases j.lonStep <;> simp

def c4Tpl : String → Option String := fun _ => none

def c4Inps : Inps := { file := ["f.h5"], latStep := some 1 }

def c4J : Inps :=
  { file := ["geo_velocity.h5"], radar2geo := false, lookupFile := some "lut.h5" }

/-- Claim C4 witness: the both-or-neither law applied at a concrete run with
only `latStep` set — the resolved `laloStep` is absent on both resolution
paths. -/
theorem claim_C4_gridstep_both_or_neither_witness :
    (read_template2inps c4Tpl c4Inps = some c4Inps ∧ ¬ c4Inps.laloStep.isSome) ∧
    (check_inps witCollabLut witInpsG2R = .proceed c4J ∧ ¬ c4J.laloStep.isSome) :=
  ⟨⟨by decide, fun hs =>
      absurd ((claim_C4_gridstep_both_or_neither.1 c4Tpl c4Inps c4Inps
        (by decide)).mp hs) (by decide)⟩,
   ⟨by decide, fun hs =>
      absurd ((claim_C4_gridstep_both_or_neither.2 witCollabLut witInpsG2R c4J
        (by decide)).mp hs) (by decide)⟩⟩

/-- Claim C1 (amended): in `read_template2inps` a template-supplied value
that survives auto-filtering (non-`auto`, non-empty) always OVERWRITES
the namespace field — including one explicitly given on the command line;
CLI values persist only for fields the template leaves unset.  (The claim
as written — CLI precedence — is refuted by the counterexample.) -/
theorem claim_C1_amended_template_precedence (t0 : String → Option String)
    (i i' : Inps) (h : read_template2inps t0 i = some i') :
    (check_template_auto_value t0 "pysar.geocode.latStep" = none →
        i'.latStep = i.latStep) ∧
    (∀ v q, check_template_auto_value t0 "pysar.geocode.latStep" = some v →
        parseFloat? v = some q → i'.latStep = some q) ∧
    (check_template_auto_value t0 "pysar.geocode.lonStep" = none →
        i'.lonStep = i.lonStep) ∧
    (∀ v q, check_template_auto_value t0 "pysar.geocode.lonStep" = some v →
        parseFloat? v = some q → i'.lonStep = some q) ∧
    (check_template_auto_value t0 "pysar.geocode.interpMethod" = none →
        i'.interpMethod = i.interpMethod) ∧
    (∀ v, check_template_auto_value t0 "pysar.geocode.interpMethod" = some v →
        i'.interpMethod = v) ∧
    (check_template_auto_value t0 "pysar.geocode.SNWE" = none →
        i'.SNWE = i.SNWE) ∧
    (∀ v qs, check_template_auto_value t0 "pysar.geocode.SNWE" = some v →
        (splitOnChar ',' v.data).mapM mergeSNWE.parseUnsignedOrSigned? = some qs →
        i'.SNWE = some qs) ∧
    (check_template_auto_value t0 "pysar.geocode.fillValue" = none →
        i'.fillValue = i.fillValue) ∧
    (∀ v, check_template_auto_value t0 "pysar.geocode.fillValue" = some v →
        containsNanL (lowerL v.data) = true → i'.fillValue = .nan) ∧
    (∀ v q, check_template_auto_value t0 "pysar.geocode.fillValue" = some v →
        containsNanL (lowerL v.data) = false → parseFloat? v = some q →
        i'.fillValue = .num q) := by
  obtain ⟨snwe, lat, lon, fv, hs, hlat, hlon, hfv, hi⟩ :=
    read_template2inps_eq t0 i i' h
  subst hi
  refine ⟨?_, ?_, ?_, ?_, ?_, ?_, ?_, ?_, ?_, ?_, ?_⟩
  · intro hnone
    unfold mergeStep at hlat
    rw [show ("pysar.geocode." ++ "latStep") = "pysar.geocode.latStep" from rfl,
        hnone] at hlat
    exact (Option.some.inj hlat).symm
  · intro v q hsome hparse
    unfold mergeStep at hlat
    rw [show ("pysar.geocode." ++ "latStep") = "pysar.geocode.latStep" from rfl,
        hsome] at hlat
    replace hlat : (parseFloat? v).map some = some lat := hlat
    rw [hparse] at hlat
    exact (Option.some.inj (show some (some q) = some lat from hlat)).symm
  · intro hnone
    unfold mergeStep at hlon
    rw [show ("pysar.geocode." ++ "lonStep") = "pysar.geocode.lonStep" from rfl,
        hnone] at hlon
    exact (Option.some.inj hlon).symm
  · intro v q hsome hparse
    unfold mergeStep at hlon
    rw [show ("pysar.geocode." ++ "lonStep") = "pysar.geocode.lonStep" from rfl,
        hsome] at hlon
    replace hlon : (parseFloat? v).map some = some lon := hlon
    rw [hparse] at hlon
    exact (Option.some.inj (show some (some q) = some lon from hlon)).symm
  · intro hnone
    show mergeInterp (check_template_auto_value t0) i.interpMethod = i.interpMethod
    unfold mergeInterp
    rw [hnone]
  · intro v hsome
    show mergeInterp (check_template_auto_value t0) i.interpMethod = v
    unfold mergeInterp
    rw [hsome]
  · intro hnone
    unfold mergeSNWE at hs
    rw [hnone] at hs
    exact (Option.some.inj hs).symm
  · intro v qs hsome hmapm
    unfold mergeSNWE at hs
    rw [hsome] at hs
    replace hs :
        ((splitOnChar ',' v.data).mapM mergeSNWE.parseUnsignedOrSigned?).map some =
          some snwe := hs
    rw [hmapm] at hs
    exact (Option.some.inj (show some (some qs) = some snwe from hs)).symm
  · intro hnone
    unfold mergeFill at hfv
    rw [hnone] at hfv
    exact (Option.some.inj hfv).symm
  · intro v hsome hnan
    unfold mergeFill at hfv
    rw [hsome] at hfv
    replace hfv : (if containsNanL (lowerL v.data) = true then some PyFloat.nan
        else (parseFloat? v).map PyFloat.num) = some fv := hfv
    rw [hnan] at hfv
    exact (Option.some.inj (show some PyFloat.nan = some fv from hfv)).symm
  · intro v q hsome hnan hparse
    unfold mergeFill at hfv
    rw [hsome] at hfv
    replace hfv : (if containsNanL (lowerL v.data) = true then some PyFloat.nan
        else (parseFloat? v).map PyFloat.num) = some fv := hfv
    rw [hnan] at hfv
    replace hfv : (parseFloat? v).map PyFloat.num = some fv := hfv
    rw [hparse] at hfv
    exact (Option.some.inj (show some (PyFloat.num q) = some fv from hfv)).symm

def c1Tpl : String → Option String :=
  fun k => if k = "pysar.geocode.latStep" then some "0.2" else none

def c1Cli : Inps := { file := ["velocity.h5"], latStep := some (Rat.divInt 1 10) }

def c1Out : Inps := { file := ["velocity.h5"], latStep := some (Rat.divInt 1 5) }

/-- Claim C1 (counterexample): with `--lat-step 0.1` on the command line and
`pysar.geocode.latStep = 0.2` in the template, the merged namespace holds
the template's 0.2, not the CLI's 0.1 — the CLI value does NOT take
precedence. -/
theorem claim_C1_counterexample :
    (read_template2inps c1Tpl c1Cli).map Inps.latStep =
      some (some (Rat.divInt 1 5)) ∧
    some (Rat.divInt 1 5) ≠ c1Cli.latStep := by
  decide

/-- Claim C1 witness: the amended precedence theorem applied at the concrete
run — the template value lands in `latStep`, while `fillValue`, left unset
by the template, keeps the CLI value. -/
theorem claim_C1_amended_template_precedence_witness :
    read_template2inps c1Tpl c1Cli = some c1Out ∧
    c1Out.latStep = some (Rat.divInt 1 5) ∧
    c1Out.fillValue = c1Cli.fillValue :=
  ⟨by decide,
   (claim_C1_amended_template_precedence c1Tpl c1Cli c1Out (by decide)).2.1
     "0.2" (Rat.divInt 1 5) (by decide) (by decide),
   (claim_C1_amended_template_precedence c1Tpl c1Cli c1Out
     (by decide)).2.2.2.2.2.2.2.2.1 (by decide)⟩

def c9Inps : Inps := { file := ["velocity.h5"], dset := some "height" }

/-- Claim C9 (counterexample): with `--dset height` the derived name is
`geo_height.h5` — the prefix followed by the dataset name PLUS the `.h5`
extension, not the bare `geo_height` the claim describes. -/
theorem claim_C9_counterexample :
    auto_output_filename "velocity.h5" c9Inps = "geo_height.h5" ∧
    auto_output_filename "velocity.h5" c9Inps ≠ "geo_" ++ "height" := by
  decide

/-- Claim C9 (amended): when `--output` is in effect (exactly one input file
and a non-empty explicit name) it is returned as-is; otherwise the derived
name is the direction prefix (`geo_`/`rdr_`) followed by the dataset name
plus `.h5` when `--dset` is given, else by the input file's base name, and
the whole name is placed under `--outdir` when that is given. -/
theorem claim_C9_amended_output_filename (infile : String) (i : Inps) :
    (∀ o, i.file.length = 1 → i.outfile = some o → o ≠ "" →
        auto_output_filename infile i = o) ∧
    (¬(i.file.length = 1 ∧ truthy i.outfile = true) →
      (∀ d, i.dset = some d → d ≠ "" → i.out_dir = none →
          auto_output_filename infile i =
            (if i.radar2geo then "geo_" else "rdr_") ++ d ++ ".h5") ∧
      (truthy i.dset = false → i.out_dir = none →
          auto_output_filename infile i =
            (if i.radar2geo then "geo_" else "rdr_") ++ os_path_basename infile) ∧
      (∀ dir, i.out_dir = some dir → dir ≠ "" →
          auto_output_filename infile i =
            os_path_join dir
              (auto_output_filename infile { i with out_dir := none }))) := by
  constructor
  · intro o h1 h2 h3
    have hcond : (decide (i.file.length = 1) && truthy i.outfile) = true := by
      rw [h2]
      simp [truthy, h1, h3]
    unfold auto_output_filename
    rw [if_pos hcond, h2]
    rfl
  · intro hn
    have hcond : (decide (i.file.length = 1) && truthy i.outfile) = false := by
      rcases Bool.eq_false_or_eq_true
          (decide (i.file.length = 1) && truthy i.outfile) with h | h
      · exfalso
        apply hn
        have := Bool.and_eq_true_iff.mp h
        exact ⟨by simpa using this.1, this.2⟩
      · exact h
    refine ⟨?_, ?_, ?_⟩
    · intro d hd hdne hdir
      unfold auto_output_filename
      simp only [hcond, Bool.false_eq_true, if_false, hd, hdir]
      rw [if_neg (by simp [hdne])]
    · intro hdset hdir
      unfold auto_output_filename
      simp only [hcond, Bool.false_eq_true, if_false, hdir]
      cases hd : i.dset with
      | none => rfl
      | some d =>
        rw [hd] at hdset
        have hd0 : d = "" := by simpa [truthy] using hdset
        simp [hd0]
    · intro dir hdir hne
      unfold auto_output_filename
      simp only [hcond, Bool.false_eq_true, if_false, hdir]
      rw [if_neg (by simp [hne])]

/-- Claim C9 witness: the amended derivation theorem applied at the concrete
dataset run. -/
theorem claim_C9_amended_output_filename_witness :
    ¬(c9Inps.file.length = 1 ∧ truthy c9Inps.outfile = true) ∧
    auto_output_filename "velocity.h5" c9Inps =
      (if c9Inps.radar2geo then "geo_" else "rdr_") ++ "height" ++ ".h5" :=
  ⟨by decide,
   ((claim_C9_amended_output_filename "velocity.h5" c9Inps).2 (by decide)).1
     "height" rfl (by decide) rfl⟩

def c2Env : RunEnv :=
  { update_file := fun out _ => !(out == "rdr_f1.h5"),
    get_dataset_list := fun _ _ => ["velocity"],
    read_attribute := fun _ _ => [("WIDTH", AttrVal.str "100")],
    radar2glob := fun _ _ => (.num 0, .num 0) }

def c2Inps : Inps :=
  { file := ["f1.h5", "f2.h5"], radar2geo := false, updateMode := true,
    lookupFile := some "lut.h5" }

/-- Claim C2 (code bug): under `updateMode`, when the first file's output is
up to date (`ut.update_file` returns false for `rdr_f1.h5`) while the
second file's output is stale (`ut.update_file` returns true for
`rdr_f2.h5`), `run_resample` `return`s from inside the loop at the first
file: the whole run performs no resample call and no write and yields
`rdr_f1.h5` — the second, stale file is never visited, although the
docstring ("resample all input files") and the per-file skip message say
the loop should continue. -/
theorem claim_C2_update_skip_aborts_batch :
    run_resample c2Env c2Inps c8Res =
      { result := some (some "rdr_f1.h5"), resampleCalls := [], writes := [] } ∧
    c2Inps.updateMode = true ∧
    c2Env.update_file (auto_output_filename "f2.h5" c2Inps)
      ["f2.h5", "lut.h5"] = true := by
  decide
